import Mathlib

/-!
Verification of the repository-reconciliation script `auto_git_push.py`.

The script shells out to git for every operation.  We embed it shallowly:

* `GitState` models the repository and its environment (whether the
  directory is a git repository, the local branches, the branches present
  on the `origin` remote, the configured origin URL, which local branches
  have an upstream tracking link, the checked-out branch, the commit count,
  whether the working tree has uncommitted changes, plus environment
  conditions: whether `git init` can succeed at this path and whether the
  network/remote is reachable).
* `Cmd` enumerates the git invocations the script performs; `execCmd`
  gives each one its effect, stdout and exit status, following git's
  documented behaviour (including checkout's create-tracking-branch guess
  when a branch exists only on origin).
* `World` threads the repository state together with the trace of executed
  commands and the error/warning lines the script prints.
* `run_command` mirrors the Python helper: it wraps `subprocess.run` in a
  `try`/`except subprocess.CalledProcessError`.  `subprocess.run` raises on
  a non-zero exit only when `check=True`, so with `check=False` the helper
  returns success `True` whatever the exit status.
* The remaining definitions translate the script's functions one by one.

File writes (`.gitignore`) are modelled as an existence flag; the script's
global identity configuration acts on git's global config, not on the
repository, and is modelled as a repository no-op.  Command outputs are
modelled already stripped, matching `result.stdout.strip()`.
-/

namespace AutoGitPush

/-- State of the working directory, its repository and environment. -/
structure GitState where
  /-- the directory is a git repository (`git init` has happened) -/
  inited : Bool
  /-- environment: `git init` can succeed here (e.g. path writable) -/
  writable : Bool
  /-- environment: the remote is reachable and pushes are permitted -/
  netOk : Bool
  /-- local branches that exist (have been born by a commit) -/
  locals : List String
  /-- branch HEAD points at (`none` = detached); may be unborn -/
  current : Option String
  /-- branches that exist on the `origin` remote -/
  remoteBranches : List String
  /-- URL of the `origin` remote, if configured -/
  originUrl : Option String
  /-- local branches with a configured upstream tracking link -/
  upstreams : List String
  /-- number of commits in the history -/
  commits : Nat
  /-- the working tree has uncommitted changes -/
  changes : Bool
  /-- a `.gitignore` file exists -/
  gitignoreExists : Bool
  /-- branch name a fresh `git init` starts on (`init.defaultBranch`) -/
  initBranch : String
deriving Repr, DecidableEq

/-- The git invocations `auto_git_push.py` performs. -/
inductive Cmd where
  /-- `git rev-parse --is-inside-work-tree` -/
  | revParseInsideWorkTree
  /-- `git init` -/
  | init
  /-- `git add -A` -/
  | addAll
  /-- `git commit -m <msg>` -/
  | commit (msg : String)
  /-- `git rev-parse --verify <branch>` -/
  | revParseVerify (branch : String)
  /-- `git checkout <branch>` -/
  | checkout (branch : String)
  /-- `git ls-remote --heads origin <branch>` -/
  | lsRemoteHeads (branch : String)
  /-- `git checkout -b <branch> --track origin/<branch>` -/
  | checkoutTrack (branch : String)
  /-- `git checkout -b <branch>` -/
  | checkoutNew (branch : String)
  /-- `git remote remove origin` -/
  | remoteRemove
  /-- `git remote add origin <url>` -/
  | remoteAdd (url : String)
  /-- `git push -u origin <branch>` -/
  | pushU (branch : String)
  /-- `git push origin <branch>` -/
  | pushTo (branch : String)
  /-- `git rev-parse --abbrev-ref HEAD` -/
  | revParseAbbrevHead
  /-- `git symbolic-ref --short HEAD` -/
  | symbolicRefHead
  /-- `git rev-parse --abbrev-ref <branch>@upstream` -/
  | revParseUpstream (branch : String)
  /-- `git config --get remote.origin.url` -/
  | configGetOriginUrl
  /-- `git status --porcelain` -/
  | statusPorcelain
  /-- `git config --global <key> <value>` (global config: repo no-op) -/
  | configGlobal (key val : String)
deriving Repr, DecidableEq

/-- Effect, stdout and exit status of one git invocation, following git's
documented behaviour.  Every command except `git init` and global
configuration fails in a directory that is not a repository. -/
def execCmd (s : GitState) : Cmd → GitState × String × Bool
  | .configGlobal _ _ => (s, "", true)
  | .revParseInsideWorkTree =>
      if s.inited then (s, "true", true) else (s, "", false)
  | .init =>
      if s.writable then
        if s.inited then (s, "Reinitialized existing Git repository", true)
        else ({s with inited := true, current := some s.initBranch},
              "Initialized empty Git repository", true)
      else (s, "", false)
  | .addAll =>
      if s.inited then (s, "", true) else (s, "", false)
  | .commit _ =>
      if s.inited then
        if s.changes then
          -- a commit on an unborn branch brings the branch into existence
          let locals :=
            match s.current with
            | some b => if b ∈ s.locals then s.locals else b :: s.locals
            | none => s.locals
          ({s with changes := false, commits := s.commits + 1,
                   locals := locals}, "", true)
        else (s, "nothing to commit, working tree clean", false)
      else (s, "", false)
  | .revParseVerify b =>
      if s.inited then
        if b ∈ s.locals then (s, "deadbeef", true) else (s, "", false)
      else (s, "", false)
  | .checkout b =>
      if s.inited then
        if b ∈ s.locals then ({s with current := some b}, "", true)
        else if s.originUrl.isSome ∧ b ∈ s.remoteBranches then
          -- git checkout guesses: create a local branch tracking origin/b
          ({s with locals := b :: s.locals, upstreams := b :: s.upstreams,
                   current := some b}, "", true)
        else (s, "", false)
      else (s, "", false)
  | .lsRemoteHeads b =>
      if s.inited ∧ s.originUrl.isSome ∧ s.netOk then
        -- exit status 0 even when the branch is absent (output then empty)
        (s, if b ∈ s.remoteBranches then "deadbeef refs/heads/" ++ b else "",
         true)
      else (s, "", false)
  | .checkoutTrack b =>
      if s.inited ∧ b ∉ s.locals ∧ b ∈ s.remoteBranches ∧ s.originUrl.isSome
      then
        ({s with locals := b :: s.locals, upstreams := b :: s.upstreams,
                 current := some b}, "", true)
      else (s, "", false)
  | .checkoutNew b =>
      if s.inited ∧ b ∉ s.locals then
        if 0 < s.commits then
          ({s with locals := b :: s.locals, current := some b}, "", true)
        else
          -- on an unborn HEAD, `checkout -b` only renames the unborn branch
          ({s with current := some b}, "", true)
      else (s, "", false)
  | .remoteRemove =>
      if s.inited ∧ s.originUrl.isSome then
        -- removing a remote also drops the tracking configuration
        ({s with originUrl := none, upstreams := []}, "", true)
      else (s, "", false)
  | .remoteAdd url =>
      if s.inited ∧ s.originUrl.isNone then
        ({s with originUrl := some url}, "", true)
      else (s, "", false)
  | .pushU b =>
      if s.inited ∧ s.originUrl.isSome ∧ s.netOk ∧ b ∈ s.locals then
        ({s with
            remoteBranches :=
              if b ∈ s.remoteBranches then s.remoteBranches
              else b :: s.remoteBranches,
            upstreams :=
              if b ∈ s.upstreams then s.upstreams else b :: s.upstreams},
         "", true)
      else (s, "", false)
  | .pushTo b =>
      if s.inited ∧ s.originUrl.isSome ∧ s.netOk ∧ b ∈ s.locals then
        ({s with
            remoteBranches :=
              if b ∈ s.remoteBranches then s.remoteBranches
              else b :: s.remoteBranches}, "", true)
      else (s, "", false)
  | .revParseAbbrevHead =>
      if s.inited then
        match s.current with
        | some b =>
            -- unborn branch: rev-parse echoes HEAD and exits non-zero
            if b ∈ s.locals then (s, b, true) else (s, "HEAD", false)
        | none => (s, "HEAD", true)
      else (s, "", false)
  | .symbolicRefHead =>
      if s.inited then
        match s.current with
        | some b => (s, b, true)
        | none => (s, "", false)
      else (s, "", false)
  | .revParseUpstream b =>
      if s.inited ∧ b ∈ s.upstreams then (s, "origin/" ++ b, true)
      else (s, "", false)
  | .configGetOriginUrl =>
      if s.inited then
        match s.originUrl with
        | some u => (s, u, true)
        | none => (s, "", false)
      else (s, "", false)
  | .statusPorcelain =>
      if s.inited then (s, if s.changes then "M file" else "", true)
      else (s, "", false)

/-- Repository state plus the trace of executed commands and the
error/warning lines the script prints. -/
structure World where
  git : GitState
  trace : List Cmd
  log : List String
deriving Repr, DecidableEq

/-- Module-level configuration read from environment variables. -/
structure Config where
  /-- `BRANCH_NAME` (already stripped; empty becomes `none`) -/
  branchEnv : Option String
  /-- `REMOTE_URL` (already stripped; empty becomes `none`) -/
  remoteUrl : Option String
  /-- `CREATE_GITIGNORE` -/
  createGitignore : Bool
  /-- `GIT_USER_NAME` -/
  userName : String
  /-- `GIT_USER_EMAIL` -/
  userEmail : String
deriving Repr, DecidableEq

/-- `run_command(command, cwd, check)`: runs the command inside
`try/except subprocess.CalledProcessError` and returns `(output, success)`.
`subprocess.run` raises (and the handler returns `False`) only when
`check=True`; with `check=False` a non-zero exit is not an exception, so
the success flag is `True` regardless of the exit status. -/
def run_command (w : World) (c : Cmd) (check : Bool) : World × String × Bool :=
  let r := execCmd w.git c
  ({w with git := r.1, trace := w.trace ++ [c]}, r.2.1,
   if check then r.2.2 else true)

/-- Python `str.lower()` (ASCII case folding, enough for git output). -/
def lowerStr (s : String) : String :=
  String.mk (s.data.map Char.toLower)

/-- `is_git_repo`. -/
def is_git_repo (w : World) : World × Bool :=
  let r := run_command w .revParseInsideWorkTree false
  (r.1, r.2.2 && lowerStr r.2.1 == "true")

/-- `get_repo_url`. -/
def get_repo_url (w : World) : World × String :=
  let r := run_command w .configGetOriginUrl false
  (r.1, if r.2.2 && !(r.2.1 == "") then r.2.1 else "Unknown")

/-- `get_current_branch`. -/
def get_current_branch (w : World) : World × Option String :=
  let r := run_command w .revParseAbbrevHead false
  if r.2.2 && !(r.2.1 == "") && !(r.2.1 == "HEAD") then (r.1, some r.2.1)
  else
    let r2 := run_command r.1 .symbolicRefHead false
    if r2.2.2 && !(r2.2.1 == "") then (r2.1, some r2.2.1) else (r2.1, none)

/-- `checkout_or_create_branch`. -/
def checkout_or_create_branch (w : World) (branch : String) : World × Bool :=
  let r := run_command w (.revParseVerify branch) false
  if r.2.2 then
    let r2 := run_command r.1 (.checkout branch) false
    (r2.1, r2.2.2)
  else
    let r3 := run_command r.1 (.lsRemoteHeads branch) false
    if r3.2.2 then
      let r4 := run_command r3.1 (.checkoutTrack branch) false
      (r4.1, r4.2.2)
    else
      let r5 := run_command r3.1 (.checkoutNew branch) false
      (r5.1, r5.2.2)

/-- `setup_git_config`. -/
def setup_git_config (cfg : Config) (w : World) : World :=
  let r := run_command w (.configGlobal "user.name" cfg.userName) false
  let r2 := run_command r.1 (.configGlobal "user.email" cfg.userEmail) false
  r2.1

/-- `has_changes`. -/
def has_changes (w : World) : World × Bool :=
  let r := run_command w .statusPorcelain false
  (r.1, r.2.2 && decide (0 < r.2.1.length))

/-- `ensure_upstream`. -/
def ensure_upstream (w : World) (branch : String) : World × Bool :=
  let r := run_command w (.revParseUpstream branch) false
  if r.2.2 then (r.1, true)
  else
    let r2 := run_command r.1 (.pushU branch) false
    (r2.1, r2.2.2)

/-- Python `needle in hay`: substring containment. -/
def containsStr (hay needle : String) : Bool :=
  (hay.splitOn needle).length != 1

/-- `commit_all`. -/
def commit_all (w : World) (msg : String) : World × Bool :=
  let r := run_command w .addAll false
  if !r.2.2 then (r.1, false)
  else
    let r2 := run_command r.1 (.commit msg) false
    if !r2.2.2 then
      if containsStr (lowerStr r2.2.1) "nothing to commit" then (r2.1, true)
      else (r2.1, false)
    else (r2.1, true)

/-- `push`. -/
def push (w : World) (branch : String) : World × Bool :=
  let r := run_command w (.pushTo branch) false
  (r.1, r.2.2)

/-- `write_gitignore_if_needed` (file contents abstracted to existence). -/
def write_gitignore_if_needed (cfg : Config) (w : World) : World :=
  if cfg.createGitignore then
    if w.git.gitignoreExists then w
    else {w with git := {w.git with gitignoreExists := true}}
  else w

/-- `ensure_git_repo`.  The error and warning prints are recorded in the
log; informational prints are not modelled. -/
def ensure_git_repo (cfg : Config) (w : World) (remote_url : Option String)
    (default_branch : String) : World × Bool :=
  let r0 := is_git_repo w
  if r0.2 then (r0.1, true)
  else
    let r1 := run_command r0.1 .init false
    if !r1.2.2 then
      ({r1.1 with log := r1.1.log ++ ["Error initializing git"]}, false)
    else
      let w2 := write_gitignore_if_needed cfg r1.1
      let r3 := run_command w2 .addAll false
      let r4 := run_command r3.1 (.commit "Initial commit") false
      let r5 := checkout_or_create_branch r4.1 default_branch
      match remote_url with
      | some url =>
          let r6 := run_command r5.1 .remoteRemove false
          let r7 := run_command r6.1 (.remoteAdd url) false
          let w8 :=
            if r7.2.2 then r7.1
            else {r7.1 with
                    log := r7.1.log ++ ["Warning: failed to add remote origin"]}
          let r9 := ensure_upstream w8 default_branch
          (r9.1, true)
      | none => (r5.1, true)

/-- The setup phase of `auto_push_loop` (everything before the polling
loop): global identity configuration, `ensure_git_repo`, branch
resolution, the forced checkout when `BRANCH_NAME` is set, and the
best-effort `ensure_upstream`.  Returns the world, the branch the loop
will use, and whether the loop is reached (`false` = aborted cycle). -/
def auto_push_setup (cfg : Config) (w : World) : World × String × Bool :=
  let w1 := setup_git_config cfg w
  let r2 := ensure_git_repo cfg w1 cfg.remoteUrl (cfg.branchEnv.getD "main")
  if !r2.2 then (r2.1, "", false)
  else
    let rb :=
      match cfg.branchEnv with
      | some b => (r2.1, b)
      | none =>
          let rc := get_current_branch r2.1
          (rc.1, rc.2.getD "main")
    let rd :=
      match cfg.branchEnv with
      | some be =>
          let rco := checkout_or_create_branch rb.1 be
          let w3 :=
            if rco.2 then rco.1
            else {rco.1 with
                    log := rco.1.log ++
                      ["Warning: could not switch or create the configured branch"]}
          let rrc := get_current_branch w3
          (rrc.1, rrc.2.getD rb.2)
      | none => rb
    let ru := get_repo_url rd.1
    let re := ensure_upstream ru.1 rd.2
    let wf :=
      if re.2 then re.1
      else {re.1 with
              log := re.1.log ++ ["Warning: could not set upstream"]}
    (wf, rd.2, true)

/-- One reconciliation pass over a repository state: `auto_push_setup`
run from a fresh world, projected back to repository state, the resolved
branch, and whether the cycle proceeded. -/
def reconcile (cfg : Config) (s : GitState) : GitState × String × Bool :=
  let r := auto_push_setup cfg (World.mk s [] [])
  (r.1.git, r.2.1, r.2.2)

/-! ### Helper lemmas shared by the claim theorems -/

theorem run_command_false_success (w : World) (c : Cmd) :
    (run_command w c false).2.2 = true := rfl

theorem run_command_false_git (w : World) (c : Cmd) :
    (run_command w c false).1.git = (execCmd w.git c).1 := rfl

theorem execCmd_verify_state (s : GitState) (b : String) :
    (execCmd s (.revParseVerify b)).1 = s := by
  simp only [execCmd]
  split <;> first | rfl | (split <;> rfl)

theorem execCmd_inside_state (s : GitState) :
    (execCmd s .revParseInsideWorkTree).1 = s := by
  simp only [execCmd]
  split <;> rfl

theorem execCmd_abbrev_state (s : GitState) :
    (execCmd s .revParseAbbrevHead).1 = s := by
  simp only [execCmd]
  split
  · split
    · split <;> rfl
    · rfl
  · rfl

theorem execCmd_symref_state (s : GitState) :
    (execCmd s .symbolicRefHead).1 = s := by
  simp only [execCmd]
  split
  · split <;> rfl
  · rfl

theorem execCmd_upstream_state (s : GitState) (b : String) :
    (execCmd s (.revParseUpstream b)).1 = s := by
  simp only [execCmd]
  split <;> rfl

theorem execCmd_geturl_state (s : GitState) :
    (execCmd s .configGetOriginUrl).1 = s := by
  simp only [execCmd]
  split
  · split <;> rfl
  · rfl

theorem execCmd_checkout_originUrl (s : GitState) (b : String) :
    (execCmd s (.checkout b)).1.originUrl = s.originUrl := by
  simp only [execCmd]
  split
  · split
    · rfl
    · split <;> rfl
  · rfl

theorem ensure_upstream_result (w : World) (b : String) :
    (ensure_upstream w b).2 = true := rfl

theorem ensure_upstream_git (w : World) (b : String) :
    (ensure_upstream w b).1.git = w.git := by
  show (execCmd w.git (.revParseUpstream b)).1 = w.git
  exact execCmd_upstream_state w.git b

theorem checkout_or_create_branch_result (w : World) (b : String) :
    (checkout_or_create_branch w b).2 = true := rfl

theorem checkout_or_create_branch_git (w : World) (b : String) :
    (checkout_or_create_branch w b).1.git
      = (execCmd (execCmd w.git (.revParseVerify b)).1 (.checkout b)).1 := rfl

theorem checkout_or_create_branch_git_of_mem (w : World) (b : String)
    (hc : w.git.current = some b) (hm : b ∈ w.git.locals) :
    (checkout_or_create_branch w b).1.git = w.git := by
  rw [checkout_or_create_branch_git, execCmd_verify_state]
  rcases w with ⟨⟨i, wr, n, lo, cu, rb, ou, us, co, ch, gi, ib⟩, t, l⟩
  simp only at hc hm
  subst hc
  cases i
  · rfl
  · simp [execCmd, hm]

theorem checkout_or_create_branch_originUrl (w : World) (b : String) :
    (checkout_or_create_branch w b).1.git.originUrl = w.git.originUrl := by
  rw [checkout_or_create_branch_git, execCmd_verify_state,
    execCmd_checkout_originUrl]

theorem setup_git_config_git (cfg : Config) (w : World) :
    (setup_git_config cfg w).git = w.git := rfl

theorem is_git_repo_git (w : World) : (is_git_repo w).1.git = w.git :=
  execCmd_inside_state w.git

theorem is_git_repo_result (w : World) :
    (is_git_repo w).2 = w.git.inited := by
  show ((run_command w .revParseInsideWorkTree false).2.2 &&
    lowerStr (run_command w .revParseInsideWorkTree false).2.1 == "true")
    = w.git.inited
  rw [run_command_false_success]
  show (lowerStr (execCmd w.git .revParseInsideWorkTree).2.1 == "true")
    = w.git.inited
  simp only [execCmd]
  cases h : w.git.inited <;> simp <;> decide

theorem get_current_branch_git (w : World) :
    (get_current_branch w).1.git = w.git := by
  simp only [get_current_branch]
  split
  · exact execCmd_abbrev_state w.git
  · split
    · show (execCmd (execCmd w.git .revParseAbbrevHead).1 .symbolicRefHead).1
        = w.git
      rw [execCmd_abbrev_state, execCmd_symref_state]
    · show (execCmd (execCmd w.git .revParseAbbrevHead).1 .symbolicRefHead).1
        = w.git
      rw [execCmd_abbrev_state, execCmd_symref_state]

theorem get_repo_url_git (w : World) : (get_repo_url w).1.git = w.git :=
  execCmd_geturl_state w.git

theorem ensure_git_repo_of_inited (cfg : Config) (w : World)
    (ru : Option String) (d : String) (h : w.git.inited = true) :
    ensure_git_repo cfg w ru d = ((is_git_repo w).1, true) := by
  simp only [ensure_git_repo]
  rw [if_pos]
  rw [is_git_repo_result, h]

theorem commit_all_result (w : World) (m : String) :
    (commit_all w m).2 = true := rfl

theorem run_command_log (w : World) (c : Cmd) (check : Bool) :
    (run_command w c check).1.log = w.log := rfl

theorem is_git_repo_log (w : World) : (is_git_repo w).1.log = w.log := rfl

theorem checkout_or_create_branch_log (w : World) (b : String) :
    (checkout_or_create_branch w b).1.log = w.log := rfl

theorem execCmd_addAll_state (s : GitState) :
    (execCmd s .addAll).1 = s := by
  simp only [execCmd]
  split <;> rfl

theorem execCmd_commit_clean (s : GitState) (m : String)
    (h : s.changes = false) : (execCmd s (.commit m)).1 = s := by
  simp only [execCmd, h]
  split <;> rfl

theorem execCmd_init_originUrl (s : GitState) :
    (execCmd s .init).1.originUrl = s.originUrl := by
  simp only [execCmd]
  split
  · split <;> rfl
  · rfl

theorem execCmd_commit_originUrl (s : GitState) (m : String) :
    (execCmd s (.commit m)).1.originUrl = s.originUrl := by
  simp only [execCmd]
  split
  · split <;> rfl
  · rfl

theorem write_gitignore_git_originUrl (cfg : Config) (w : World) :
    (write_gitignore_if_needed cfg w).git.originUrl = w.git.originUrl := by
  simp only [write_gitignore_if_needed]
  split
  · split <;> rfl
  · rfl

theorem write_gitignore_log (cfg : Config) (w : World) :
    (write_gitignore_if_needed cfg w).log = w.log := by
  simp only [write_gitignore_if_needed]
  split
  · split <;> rfl
  · rfl

theorem commit_all_git_clean (w : World) (m : String)
    (h : w.git.changes = false) : (commit_all w m).1.git = w.git := by
  show (execCmd (execCmd w.git .addAll).1 (.commit m)).1 = w.git
  rw [execCmd_addAll_state]
  exact execCmd_commit_clean w.git m h

/-- After `ensure_git_repo` succeeds on an already-initialized repository,
the repository state is exactly the input state. -/
theorem ensure_git_repo_inited_git (cfg : Config) (w : World)
    (ru : Option String) (d : String) (h : w.git.inited = true) :
    (ensure_git_repo cfg w ru d).1.git = w.git := by
  rw [ensure_git_repo_of_inited cfg w ru d h, is_git_repo_git]

/-- On an initialized repository whose configured branch is checked out,
one reconciliation pass leaves the repository state unchanged. -/
theorem reconcile_fixed (cfg : Config) (s : GitState) (b : String)
    (h1 : s.inited = true) (h2 : s.current = some b) (h3 : b ∈ s.locals)
    (h6 : cfg.branchEnv = none ∨ cfg.branchEnv = some b) :
    (reconcile cfg s).1 = s := by
  simp only [reconcile, auto_push_setup]
  rw [ensure_git_repo_of_inited cfg (setup_git_config cfg (World.mk s [] []))
    cfg.remoteUrl (cfg.branchEnv.getD "main") h1]
  have hc : (is_git_repo (setup_git_config cfg
      (World.mk s [] []))).1.git.current = some b := by
    rw [is_git_repo_git]; exact h2
  have hm : b ∈ (is_git_repo (setup_git_config cfg
      (World.mk s [] []))).1.git.locals := by
    rw [is_git_repo_git]; exact h3
  rcases h6 with h6 | h6 <;>
    simp only [h6, Bool.not_true, Bool.false_eq_true, if_false,
      ensure_upstream_result, if_true, checkout_or_create_branch_result,
      ensure_upstream_git, get_repo_url_git, get_current_branch_git]
  · rw [is_git_repo_git]
    rfl
  · rw [checkout_or_create_branch_git_of_mem _ b hc hm, is_git_repo_git]
    rfl

/-- The reconciliation pass never changes the configured origin URL of an
initialized repository. -/
theorem reconcile_originUrl (cfg : Config) (s : GitState)
    (h : s.inited = true) :
    (reconcile cfg s).1.originUrl = s.originUrl := by
  simp only [reconcile, auto_push_setup]
  rw [ensure_git_repo_of_inited cfg (setup_git_config cfg (World.mk s [] []))
    cfg.remoteUrl (cfg.branchEnv.getD "main") h]
  cases h6 : cfg.branchEnv <;>
    simp only [h6, Bool.not_true, Bool.false_eq_true, if_false,
      ensure_upstream_result, if_true, checkout_or_create_branch_result,
      ensure_upstream_git, get_repo_url_git, get_current_branch_git]
  · rw [is_git_repo_git]
    rfl
  · rw [checkout_or_create_branch_originUrl, is_git_repo_git]
    rfl

/-! ### Concrete states used in the claim theorems -/

/-- A directory that is not a repository and where `git init` fails
(e.g. the path is not writable). -/
def unwritableDir : GitState :=
  { inited := false, writable := false, netOk := true, locals := [],
    current := none, remoteBranches := [], originUrl := none,
    upstreams := [], commits := 0, changes := false,
    gitignoreExists := false, initBranch := "master" }

/-- An initialized repository on branch `main`, with no remote configured
and no branch named `feature` anywhere. -/
def mainOnlyRepo : GitState :=
  { inited := true, writable := true, netOk := true, locals := ["main"],
    current := some "main", remoteBranches := [], originUrl := none,
    upstreams := [], commits := 1, changes := false,
    gitignoreExists := true, initBranch := "master" }

/-- An initialized repository on branch `main` with origin configured but
no upstream link for `main`. -/
def noUpstreamRepo : GitState :=
  { mainOnlyRepo with originUrl := some "https://example.com/r.git",
                      remoteBranches := ["main"] }

/-- A directory that is not yet a repository, with files present. -/
def freshDir : GitState :=
  { inited := false, writable := true, netOk := true, locals := [],
    current := none, remoteBranches := [], originUrl := none,
    upstreams := [], commits := 0, changes := true,
    gitignoreExists := false, initBranch := "master" }

/-- An initialized repository on branch `dev`, with no branch named
`feature` locally or on the remote. -/
def devRepo : GitState :=
  { inited := true, writable := true, netOk := true, locals := ["dev"],
    current := some "dev", remoteBranches := [], originUrl := none,
    upstreams := ["dev"], commits := 1, changes := false,
    gitignoreExists := true, initBranch := "master" }

/-- A fully configured repository: initialized, branch `main` checked
out, origin set, upstream linked. -/
def fullRepo : GitState :=
  { inited := true, writable := true, netOk := true, locals := ["main"],
    current := some "main", remoteBranches := ["main"],
    originUrl := some "https://example.com/r.git", upstreams := ["main"],
    commits := 3, changes := false, gitignoreExists := true,
    initBranch := "master" }

/-- Configuration with no branch override and a remote URL. -/
def cfgWithRemote : Config :=
  { branchEnv := none, remoteUrl := some "https://example.com/r.git",
    createGitignore := false, userName := "u", userEmail := "e" }

/-- Configuration with no branch override and no remote URL. -/
def cfgNoRemote : Config :=
  { branchEnv := none, remoteUrl := none, createGitignore := true,
    userName := "u", userEmail := "e" }

/-- Configuration with no branch override and a second, different remote
URL. -/
def cfgOtherRemote : Config :=
  { branchEnv := none, remoteUrl := some "https://example.com/other.git",
    createGitignore := false, userName := "u", userEmail := "e" }

/-- Configuration forcing branch `feature`, with no remote URL. -/
def cfgFeature : Config :=
  { branchEnv := some "feature", remoteUrl := none,
    createGitignore := true, userName := "u", userEmail := "e" }

/-! ### Claim theorems -/

/-- C10: every call site invokes `run_command` with `check=False`, and in
that mode the returned success flag is `True` regardless of the invoked
command's exit status; consequently the booleans `checkout_or_create_branch`,
`ensure_upstream`, `commit_all` and `push` read off their underlying
commands are `True` even when those git commands exit non-zero. -/
theorem run_command_no_check_always_reports_success :
    (∀ w c, (run_command w c false).2.2 = true) ∧
    (∀ w b, (push w b).2 = true) ∧
    (∀ w b, (ensure_upstream w b).2 = true) ∧
    (∀ w b, (checkout_or_create_branch w b).2 = true) ∧
    (∀ w m, (commit_all w m).2 = true) :=
  ⟨fun _ _ => rfl, fun _ _ => rfl, fun _ _ => rfl,
   fun _ _ => rfl, fun _ _ => rfl⟩

/-- C1 (refuted by the code): at a concrete input where `git init` exits
non-zero, `run_command` invoked with `check=False` — the mode every call
site uses — still returns success `True`, contradicting the claim that the
success component is `False` exactly when the command fails. -/
theorem run_command_success_despite_failed_command :
    (execCmd unwritableDir .init).2.2 = false ∧
    (run_command (World.mk unwritableDir [] []) .init false).2.2 = true := by
  decide

/-- C2 (refuted by the code): with `git init` failing, `ensure_git_repo`
still returns `True` and the cycle goes on to attempt branch, remote and
upstream operations (`git checkout`, `git remote add`, the upstream
check), because the failed `git init` is reported as success. -/
theorem ensure_git_repo_ignores_init_failure :
    (ensure_git_repo cfgWithRemote (World.mk unwritableDir [] [])
        (some "https://example.com/r.git") "main").2 = true ∧
    (ensure_git_repo cfgWithRemote (World.mk unwritableDir [] [])
        (some "https://example.com/r.git") "main").1.trace =
      [Cmd.revParseInsideWorkTree, Cmd.init, Cmd.addAll,
       Cmd.commit "Initial commit", Cmd.revParseVerify "main",
       Cmd.checkout "main", Cmd.remoteRemove,
       Cmd.remoteAdd "https://example.com/r.git",
       Cmd.revParseUpstream "main"] := by
  decide

/-- C3 (refuted by the code): for a repository on `main` with no branch
`feature` locally or on the remote, `checkout_or_create_branch` never
reaches the create steps: it only runs `git rev-parse --verify` and
`git checkout` (which fails), creates no branch, leaves HEAD on `main`,
and still reports success. -/
theorem checkout_or_create_branch_creates_nothing :
    (checkout_or_create_branch (World.mk mainOnlyRepo [] []) "feature").2
      = true ∧
    (checkout_or_create_branch (World.mk mainOnlyRepo [] [])
        "feature").1.git.locals = ["main"] ∧
    (checkout_or_create_branch (World.mk mainOnlyRepo [] [])
        "feature").1.git.current = some "main" ∧
    (checkout_or_create_branch (World.mk mainOnlyRepo [] [])
        "feature").1.trace =
      [Cmd.revParseVerify "feature", Cmd.checkout "feature"] := by
  decide

/-- C4 (refuted by the code): for a branch with no configured upstream,
`ensure_upstream` returns `True` immediately without running
`git push -u origin main` and without establishing any upstream link,
because the failed upstream query is reported as success. -/
theorem ensure_upstream_never_pushes :
    (ensure_upstream (World.mk noUpstreamRepo [] []) "main").2 = true ∧
    (ensure_upstream (World.mk noUpstreamRepo [] [])
        "main").1.git.upstreams = [] ∧
    (ensure_upstream (World.mk noUpstreamRepo [] []) "main").1.trace =
      [Cmd.revParseUpstream "main"] := by
  decide

/-- C8 counterexample: on a fresh directory with no origin and the remote
URL unset, `ensure_git_repo` succeeds, prints no error or warning, and
runs no remote command at all — no failure signal is produced, refuting
"the remote-configuration step reports failure". -/
theorem no_failure_signal_when_remote_unset :
    (ensure_git_repo cfgNoRemote (World.mk freshDir [] []) none "main").2
      = true ∧
    (ensure_git_repo cfgNoRemote (World.mk freshDir [] [])
        none "main").1.log = [] ∧
    (ensure_git_repo cfgNoRemote (World.mk freshDir [] [])
        none "main").1.trace =
      [Cmd.revParseInsideWorkTree, Cmd.init, Cmd.addAll,
       Cmd.commit "Initial commit", Cmd.revParseVerify "main",
       Cmd.checkout "main"] ∧
    (ensure_git_repo cfgNoRemote (World.mk freshDir [] [])
        none "main").1.git.originUrl = none := by
  decide

/-- C5: on an already-fully-configured repository (initialized, the
configured branch checked out, origin set, upstream linked), a second
reconciliation pass leaves the repository state identical to the state
after the first pass: no remote re-added, no branch re-created, no
upstream link reset. -/
theorem reconcile_idempotent (cfg : Config) (s : GitState) (b : String)
    (h1 : s.inited = true) (h2 : s.current = some b) (h3 : b ∈ s.locals)
    (h4 : b ∈ s.upstreams) (h5 : s.originUrl.isSome = true)
    (h6 : cfg.branchEnv = none ∨ cfg.branchEnv = some b) :
    (reconcile cfg (reconcile cfg s).1).1 = (reconcile cfg s).1 := by
  rw [reconcile_fixed cfg s b h1 h2 h3 h6]
  exact reconcile_fixed cfg s b h1 h2 h3 h6

/-- Witness for C5 at a concrete fully configured repository. -/
theorem reconcile_idempotent_witness :
    (fullRepo.inited = true ∧ fullRepo.current = some "main" ∧
     "main" ∈ fullRepo.locals ∧ "main" ∈ fullRepo.upstreams ∧
     fullRepo.originUrl.isSome = true ∧
     (cfgNoRemote.branchEnv = none ∨ cfgNoRemote.branchEnv = some "main")) ∧
    (reconcile cfgNoRemote (reconcile cfgNoRemote fullRepo).1).1
      = (reconcile cfgNoRemote fullRepo).1 :=
  ⟨⟨rfl, rfl, by decide, by decide, rfl, Or.inl rfl⟩,
   reconcile_idempotent cfgNoRemote fullRepo "main" rfl rfl (by decide)
     (by decide) rfl (Or.inl rfl)⟩

/-- C6: if origin is already configured with URL A, reconciliation with a
different configured remote URL B leaves origin pointing at A. -/
theorem reconcile_preserves_existing_origin (cfg : Config) (s : GitState)
    (A B : String) (h1 : s.inited = true) (h2 : s.originUrl = some A)
    (h3 : cfg.remoteUrl = some B) (h4 : A ≠ B) :
    (reconcile cfg s).1.originUrl = some A := by
  rw [reconcile_originUrl cfg s h1, h2]

/-- Witness for C6: origin keeps URL A when reconciling with URL B. -/
theorem reconcile_preserves_existing_origin_witness :
    (fullRepo.inited = true ∧
     fullRepo.originUrl = some "https://example.com/r.git" ∧
     cfgOtherRemote.remoteUrl = some "https://example.com/other.git" ∧
     "https://example.com/r.git" ≠ "https://example.com/other.git") ∧
    (reconcile cfgOtherRemote fullRepo).1.originUrl
      = some "https://example.com/r.git" :=
  ⟨⟨rfl, rfl, rfl, by decide⟩,
   reconcile_preserves_existing_origin cfgOtherRemote fullRepo
     "https://example.com/r.git" "https://example.com/other.git"
     rfl rfl rfl (by decide)⟩

/-- C7: when the working tree has no changes, `commit_all` returns
success and leaves the repository state — in particular the commit
history — unchanged; the "nothing to commit" outcome of the commit
command is reported as success, not failure. -/
theorem commit_all_clean_tree (w : World) (m : String)
    (h : w.git.changes = false) :
    (commit_all w m).2 = true ∧
    (commit_all w m).1.git.commits = w.git.commits ∧
    (commit_all w m).1.git = w.git :=
  ⟨commit_all_result w m, by rw [commit_all_git_clean w m h],
   commit_all_git_clean w m h⟩

/-- Witness for C7 at a concrete clean repository. -/
theorem commit_all_clean_tree_witness :
    (World.mk fullRepo [] []).git.changes = false ∧
    ((commit_all (World.mk fullRepo [] []) "Auto-commit").2 = true ∧
     (commit_all (World.mk fullRepo [] []) "Auto-commit").1.git.commits
       = (World.mk fullRepo [] []).git.commits ∧
     (commit_all (World.mk fullRepo [] []) "Auto-commit").1.git
       = (World.mk fullRepo [] []).git) :=
  ⟨rfl, commit_all_clean_tree (World.mk fullRepo [] []) "Auto-commit" rfl⟩

/-- C8 amended: when the configured remote URL is unset and no origin
exists, the remote-configuration step is skipped entirely — no failure is
reported (no error or warning printed), `ensure_git_repo` returns success,
and the cycle continues without remote capability. -/
theorem ensure_git_repo_remote_unset_silent (cfg : Config) (s : GitState)
    (d : String) (h : s.originUrl = none) :
    (ensure_git_repo cfg (World.mk s [] []) none d).2 = true ∧
    (ensure_git_repo cfg (World.mk s [] []) none d).1.log = [] ∧
    (ensure_git_repo cfg (World.mk s [] []) none d).1.git.originUrl
      = none := by
  cases hi : s.inited
  · simp only [ensure_git_repo, is_git_repo_result]
    simp only [show (World.mk s [] []).git = s from rfl, hi,
      Bool.false_eq_true, if_false, run_command_false_success,
      Bool.not_true, checkout_or_create_branch_result]
    refine ⟨trivial, ?_, ?_⟩
    · rw [checkout_or_create_branch_log, run_command_log, run_command_log,
        write_gitignore_log, run_command_log, is_git_repo_log]
    · rw [checkout_or_create_branch_originUrl, run_command_false_git,
        execCmd_commit_originUrl, run_command_false_git,
        execCmd_addAll_state, write_gitignore_git_originUrl,
        run_command_false_git, execCmd_init_originUrl, is_git_repo_git]
      exact h
  · rw [ensure_git_repo_of_inited cfg (World.mk s [] []) none d hi]
    exact ⟨rfl, is_git_repo_log (World.mk s [] []), by
      rw [is_git_repo_git]; exact h⟩

/-- Witness for C8 amended at a concrete fresh directory. -/
theorem ensure_git_repo_remote_unset_silent_witness :
    freshDir.originUrl = none ∧
    ((ensure_git_repo cfgNoRemote (World.mk freshDir [] []) none "main").2
        = true ∧
     (ensure_git_repo cfgNoRemote (World.mk freshDir [] [])
        none "main").1.log = [] ∧
     (ensure_git_repo cfgNoRemote (World.mk freshDir [] [])
        none "main").1.git.originUrl = none) :=
  ⟨rfl, ensure_git_repo_remote_unset_silent cfgNoRemote freshDir "main" rfl⟩

/-- C9 (refuted by the code): with `BRANCH_NAME=feature` configured but no
branch `feature` available, the failed checkout is reported as success, no
warning is printed, and re-detection makes the loop use the repository's
current branch `dev` instead of the explicitly configured `feature`. -/
theorem loop_branch_not_explicit_config :
    (reconcile cfgFeature devRepo).2.1 = "dev" ∧
    (reconcile cfgFeature devRepo).2.2 = true ∧
    cfgFeature.branchEnv = some "feature" := by
  decide

end AutoGitPush
